import Mathlib

/-!
Shallow embedding of the xenia GTK windowing adapter
(`src/xenia/ui/window_gtk.cc` and `src/xenia/ui/ui_event.h`) and proofs
about its data model and handlers.

Pure C++ functions become Lean functions; methods that mutate the
`GTKWindow` object become explicit state-passing functions on a
`GTKWindowState` record; calls into the GTK toolkit and dispatches of
portable events are recorded in explicit trace lists so that statements
such as "performs no toolkit call" or "exactly one OnClose notification"
can be expressed.  Machine integers (`int32_t`, `guint`, `uint32_t`) are
modelled as `Int`/`Nat` with explicit wrap-around where the arithmetic
could overflow.
-/

namespace Xenia

/-- `KeyEvent::Key` enumeration from `ui_event.h`, in declaration order. -/
inductive Key where
  | kNone
  | kEsc
  | kF1
  | kF2
  | kF3
  | kF4
  | kF5
  | kF6
  | kF7
  | kF8
  | kF9
  | kF10
  | kF11
  | kF12
  | kTick
  | k1
  | k2
  | k3
  | k4
  | k5
  | k6
  | k7
  | k8
  | k9
  | k0
  | kMinus
  | kEquals
  | kBackspace
  | kTab
  | kQ
  | kW
  | kE
  | kR
  | kT
  | kY
  | kU
  | kI
  | kO
  | kP
  | kLeftBracket
  | kRightBracket
  | kBackSlash
  | kCapsLock
  | kA
  | kS
  | kD
  | kF
  | kG
  | kH
  | kJ
  | kK
  | kL
  | kSemiColon
  | kQuote
  | kEnter
  | kLeftShift
  | kZ
  | kX
  | kC
  | kV
  | kB
  | kN
  | kM
  | kComma
  | kPeriod
  | kSlash
  | kRightShift
  | kLeftControl
  | kSuper
  | kLeftAlt
  | kSpace
  | kRightAlt
  | kRightControl
  | kUp
  | kDown
  | kLeft
  | kRight
  | kInsert
  | kHome
  | kPageUp
  | kDelete
  | kEnd
  | kPageDown
  | kNpStar
  | kNpMinus
  | kNpPlus
  | kPause
  deriving DecidableEq, Repr

/-! GDK keyval constants (values from `gdk/gdkkeysyms.h`).  `guint` keyvals
are modelled as `Nat`. -/

def GDK_KEY_Escape : Nat := 0xff1b
def GDK_KEY_F1 : Nat := 0xffbe
def GDK_KEY_F2 : Nat := 0xffbf
def GDK_KEY_F3 : Nat := 0xffc0
def GDK_KEY_F4 : Nat := 0xffc1
def GDK_KEY_F5 : Nat := 0xffc2
def GDK_KEY_F6 : Nat := 0xffc3
def GDK_KEY_F7 : Nat := 0xffc4
def GDK_KEY_F8 : Nat := 0xffc5
def GDK_KEY_F9 : Nat := 0xffc6
def GDK_KEY_F10 : Nat := 0xffc7
def GDK_KEY_F11 : Nat := 0xffc8
def GDK_KEY_F12 : Nat := 0xffc9
def GDK_KEY_asciitilde : Nat := 0x07e
def GDK_KEY_grave : Nat := 0x060
def GDK_KEY_1 : Nat := 0x031
def GDK_KEY_exclam : Nat := 0x021
def GDK_KEY_2 : Nat := 0x032
def GDK_KEY_3 : Nat := 0x033
def GDK_KEY_4 : Nat := 0x034
def GDK_KEY_5 : Nat := 0x035
def GDK_KEY_6 : Nat := 0x036
def GDK_KEY_7 : Nat := 0x037
def GDK_KEY_8 : Nat := 0x038
def GDK_KEY_9 : Nat := 0x039
def GDK_KEY_0 : Nat := 0x030
def GDK_KEY_minus : Nat := 0x02d
def GDK_KEY_underscore : Nat := 0x05f
def GDK_KEY_equal : Nat := 0x03d
def GDK_KEY_plus : Nat := 0x02b
def GDK_KEY_BackSpace : Nat := 0xff08
def GDK_KEY_Tab : Nat := 0xff09
def GDK_KEY_q : Nat := 0x071
def GDK_KEY_Q : Nat := 0x051
def GDK_KEY_w : Nat := 0x077
def GDK_KEY_W : Nat := 0x057
def GDK_KEY_e : Nat := 0x065
def GDK_KEY_E : Nat := 0x045
def GDK_KEY_r : Nat := 0x072
def GDK_KEY_R : Nat := 0x052
def GDK_KEY_t : Nat := 0x074
def GDK_KEY_T : Nat := 0x054
def GDK_KEY_y : Nat := 0x079
def GDK_KEY_Y : Nat := 0x059
def GDK_KEY_u : Nat := 0x075
def GDK_KEY_U : Nat := 0x055
def GDK_KEY_i : Nat := 0x069
def GDK_KEY_I : Nat := 0x049
def GDK_KEY_o : Nat := 0x06f
def GDK_KEY_O : Nat := 0x04f
def GDK_KEY_p : Nat := 0x070
def GDK_KEY_P : Nat := 0x050
def GDK_KEY_bracketleft : Nat := 0x05b
def GDK_KEY_braceleft : Nat := 0x07b
def GDK_KEY_bracketright : Nat := 0x05d
def GDK_KEY_braceright : Nat := 0x07d
def GDK_KEY_backslash : Nat := 0x05c
def GDK_KEY_bar : Nat := 0x07c
def GDK_KEY_Caps_Lock : Nat := 0xffe5
def GDK_KEY_a : Nat := 0x061
def GDK_KEY_A : Nat := 0x041
def GDK_KEY_s : Nat := 0x073
def GDK_KEY_S : Nat := 0x053
def GDK_KEY_d : Nat := 0x064
def GDK_KEY_D : Nat := 0x044
def GDK_KEY_f : Nat := 0x066
def GDK_KEY_F : Nat := 0x046
def GDK_KEY_g : Nat := 0x067
def GDK_KEY_G : Nat := 0x047
def GDK_KEY_h : Nat := 0x068
def GDK_KEY_H : Nat := 0x048
def GDK_KEY_j : Nat := 0x06a
def GDK_KEY_J : Nat := 0x04a
def GDK_KEY_k : Nat := 0x06b
def GDK_KEY_K : Nat := 0x04b
def GDK_KEY_l : Nat := 0x06c
def GDK_KEY_L : Nat := 0x04c
def GDK_KEY_semicolon : Nat := 0x03b
def GDK_KEY_colon : Nat := 0x03a
def GDK_KEY_apostrophe : Nat := 0x027
def GDK_KEY_quotedbl : Nat := 0x022
def GDK_KEY_Return : Nat := 0xff0d
def GDK_KEY_Shift_L : Nat := 0xffe1
def GDK_KEY_z : Nat := 0x07a
def GDK_KEY_Z : Nat := 0x05a
def GDK_KEY_x : Nat := 0x078
def GDK_KEY_X : Nat := 0x058
def GDK_KEY_c : Nat := 0x063
def GDK_KEY_C : Nat := 0x043
def GDK_KEY_v : Nat := 0x076
def GDK_KEY_V : Nat := 0x056
def GDK_KEY_b : Nat := 0x062
def GDK_KEY_B : Nat := 0x042
def GDK_KEY_n : Nat := 0x06e
def GDK_KEY_N : Nat := 0x04e
def GDK_KEY_m : Nat := 0x06d
def GDK_KEY_M : Nat := 0x04d
def GDK_KEY_less : Nat := 0x03c
def GDK_KEY_comma : Nat := 0x02c
def GDK_KEY_greater : Nat := 0x03e
def GDK_KEY_period : Nat := 0x02e
def GDK_KEY_slash : Nat := 0x02f
def GDK_KEY_question : Nat := 0x03f
def GDK_KEY_Shift_R : Nat := 0xffe2
def GDK_KEY_Control_L : Nat := 0xffe3
def GDK_KEY_Super_L : Nat := 0xffeb
def GDK_KEY_Super_R : Nat := 0xffec
def GDK_KEY_Alt_L : Nat := 0xffe9
def GDK_KEY_space : Nat := 0x020
def GDK_KEY_Alt_R : Nat := 0xffea
def GDK_KEY_Control_R : Nat := 0xffe4
def GDK_KEY_Up : Nat := 0xff52
def GDK_KEY_Down : Nat := 0xff54
def GDK_KEY_Left : Nat := 0xff51
def GDK_KEY_Right : Nat := 0xff53
def GDK_KEY_Insert : Nat := 0xff63
def GDK_KEY_Delete : Nat := 0xffff
def GDK_KEY_Home : Nat := 0xff50
def GDK_KEY_End : Nat := 0xff57
def GDK_KEY_Page_Up : Nat := 0xff55
def GDK_KEY_Page_Down : Nat := 0xff56
def GDK_KEY_KP_Multiply : Nat := 0xffaa
def GDK_KEY_KP_Subtract : Nat := 0xffad
def GDK_KEY_KP_Add : Nat := 0xffab
def GDK_KEY_Pause : Nat := 0xff13

/-- The cases of the `switch` in `MapGdkKeyToKeyEventKey`
(`window_gtk.cc:392-607`) as an association list, in source order.  A
fall-through pair of `case` labels sharing one `return` becomes two entries
with the same `Key` value. -/
def gdkKeyTable : List (Nat × Key) :=
  [ (GDK_KEY_Escape, Key.kEsc)
  , (GDK_KEY_F1, Key.kF1)
  , (GDK_KEY_F2, Key.kF2)
  , (GDK_KEY_F3, Key.kF3)
  , (GDK_KEY_F4, Key.kF4)
  , (GDK_KEY_F5, Key.kF5)
  , (GDK_KEY_F6, Key.kF6)
  , (GDK_KEY_F7, Key.kF7)
  , (GDK_KEY_F8, Key.kF8)
  , (GDK_KEY_F9, Key.kF9)
  , (GDK_KEY_F10, Key.kF10)
  , (GDK_KEY_F11, Key.kF11)
  , (GDK_KEY_F12, Key.kF12)
  , (GDK_KEY_asciitilde, Key.kTick)
  , (GDK_KEY_grave, Key.kTick)
  , (GDK_KEY_1, Key.k1)
  , (GDK_KEY_exclam, Key.k1)
  , (GDK_KEY_2, Key.k2)
  , (GDK_KEY_3, Key.k3)
  , (GDK_KEY_4, Key.k4)
  , (GDK_KEY_5, Key.k5)
  , (GDK_KEY_6, Key.k6)
  , (GDK_KEY_7, Key.k7)
  , (GDK_KEY_8, Key.k8)
  , (GDK_KEY_9, Key.k9)
  , (GDK_KEY_0, Key.k0)
  , (GDK_KEY_minus, Key.kMinus)
  , (GDK_KEY_underscore, Key.kMinus)
  , (GDK_KEY_equal, Key.kEquals)
  , (GDK_KEY_plus, Key.kEquals)
  , (GDK_KEY_BackSpace, Key.kBackspace)
  , (GDK_KEY_Tab, Key.kTab)
  , (GDK_KEY_q, Key.kQ)
  , (GDK_KEY_Q, Key.kQ)
  , (GDK_KEY_w, Key.kW)
  , (GDK_KEY_W, Key.kW)
  , (GDK_KEY_e, Key.kE)
  , (GDK_KEY_E, Key.kE)
  , (GDK_KEY_r, Key.kR)
  , (GDK_KEY_R, Key.kR)
  , (GDK_KEY_t, Key.kT)
  , (GDK_KEY_T, Key.kT)
  , (GDK_KEY_y, Key.kY)
  , (GDK_KEY_Y, Key.kY)
  , (GDK_KEY_u, Key.kU)
  , (GDK_KEY_U, Key.kU)
  , (GDK_KEY_i, Key.kI)
  , (GDK_KEY_I, Key.kI)
  , (GDK_KEY_o, Key.kO)
  , (GDK_KEY_O, Key.kO)
  , (GDK_KEY_p, Key.kP)
  , (GDK_KEY_P, Key.kP)
  , (GDK_KEY_bracketleft, Key.kLeftBracket)
  , (GDK_KEY_braceleft, Key.kLeftBracket)
  , (GDK_KEY_bracketright, Key.kRightBracket)
  , (GDK_KEY_braceright, Key.kRightBracket)
  , (GDK_KEY_backslash, Key.kBackSlash)
  , (GDK_KEY_bar, Key.kBackSlash)
  , (GDK_KEY_Caps_Lock, Key.kCapsLock)
  , (GDK_KEY_a, Key.kA)
  , (GDK_KEY_A, Key.kA)
  , (GDK_KEY_s, Key.kS)
  , (GDK_KEY_S, Key.kS)
  , (GDK_KEY_d, Key.kD)
  , (GDK_KEY_D, Key.kD)
  , (GDK_KEY_f, Key.kF)
  , (GDK_KEY_F, Key.kF)
  , (GDK_KEY_g, Key.kG)
  , (GDK_KEY_G, Key.kG)
  , (GDK_KEY_h, Key.kH)
  , (GDK_KEY_H, Key.kH)
  , (GDK_KEY_j, Key.kJ)
  , (GDK_KEY_J, Key.kJ)
  , (GDK_KEY_k, Key.kK)
  , (GDK_KEY_K, Key.kK)
  , (GDK_KEY_l, Key.kL)
  , (GDK_KEY_L, Key.kL)
  , (GDK_KEY_semicolon, Key.kSemiColon)
  , (GDK_KEY_colon, Key.kSemiColon)
  , (GDK_KEY_apostrophe, Key.kQuote)
  , (GDK_KEY_quotedbl, Key.kQuote)
  , (GDK_KEY_Return, Key.kEnter)
  , (GDK_KEY_Shift_L, Key.kLeftShift)
  , (GDK_KEY_z, Key.kZ)
  , (GDK_KEY_Z, Key.kZ)
  , (GDK_KEY_x, Key.kX)
  , (GDK_KEY_X, Key.kX)
  , (GDK_KEY_c, Key.kC)
  , (GDK_KEY_C, Key.kC)
  , (GDK_KEY_v, Key.kV)
  , (GDK_KEY_V, Key.kV)
  , (GDK_KEY_b, Key.kB)
  , (GDK_KEY_B, Key.kB)
  , (GDK_KEY_n, Key.kN)
  , (GDK_KEY_N, Key.kN)
  , (GDK_KEY_m, Key.kM)
  , (GDK_KEY_M, Key.kM)
  , (GDK_KEY_less, Key.kComma)
  , (GDK_KEY_comma, Key.kComma)
  , (GDK_KEY_greater, Key.kPeriod)
  , (GDK_KEY_period, Key.kPeriod)
  , (GDK_KEY_slash, Key.kSlash)
  , (GDK_KEY_question, Key.kSlash)
  , (GDK_KEY_Shift_R, Key.kRightShift)
  , (GDK_KEY_Control_L, Key.kLeftControl)
  , (GDK_KEY_Super_L, Key.kSuper)
  , (GDK_KEY_Super_R, Key.kSuper)
  , (GDK_KEY_Alt_L, Key.kLeftAlt)
  , (GDK_KEY_space, Key.kSpace)
  , (GDK_KEY_Alt_R, Key.kRightAlt)
  , (GDK_KEY_Control_R, Key.kRightControl)
  , (GDK_KEY_Up, Key.kUp)
  , (GDK_KEY_Down, Key.kDown)
  , (GDK_KEY_Left, Key.kLeft)
  , (GDK_KEY_Right, Key.kRight)
  , (GDK_KEY_Insert, Key.kInsert)
  , (GDK_KEY_Delete, Key.kDelete)
  , (GDK_KEY_Home, Key.kHome)
  , (GDK_KEY_End, Key.kEnd)
  , (GDK_KEY_Page_Up, Key.kPageUp)
  , (GDK_KEY_Page_Down, Key.kPageDown)
  , (GDK_KEY_KP_Multiply, Key.kNpStar)
  , (GDK_KEY_KP_Subtract, Key.kNpMinus)
  , (GDK_KEY_KP_Add, Key.kNpPlus)
  , (GDK_KEY_Pause, Key.kPause) ]

/-- The keyvals that appear as a `case` label of the `switch`. -/
def listedGdkKeyvals : List Nat := gdkKeyTable.map Prod.fst

/-- `MapGdkKeyToKeyEventKey` (`window_gtk.cc:392-607`): a `switch` on the
keyval returning the matching `KeyEvent::Key`, falling through to
`return KeyEvent::Key::kNone;` after the `switch` when no case matches. -/
def MapGdkKeyToKeyEventKey (key : Nat) : Key :=
  (gdkKeyTable.lookup key).getD Key.kNone

example : MapGdkKeyToKeyEventKey GDK_KEY_Escape = Key.kEsc := by decide
example : MapGdkKeyToKeyEventKey GDK_KEY_space = Key.kSpace := by decide
example : MapGdkKeyToKeyEventKey 0xff14 = Key.kNone := by decide

/-! ### The portable event data model (`ui_event.h`) -/

/-- An abstract `Window*` pointer value; `0` is kept distinct from
`some`-tagged pointers by using `Option` where the C++ field is nullable. -/
abbrev WindowPtr := Nat

/-- `UIEvent` (`ui_event.h:18-27`): the portable base event.  Its only
data member is the originating window, `target_`, nullable with default
`nullptr`. -/
structure UIEvent where
  target_ : Option WindowPtr := none
  deriving DecidableEq, Repr

/-- `UIEvent::target()` accessor. -/
def UIEvent.target (e : UIEvent) : Option WindowPtr := e.target_

/-- `KeyEvent` (`ui_event.h:41-180`): data members in declaration order
(`handled_`, `key_`, `key_char_`, `native_key_code_`, `repeat_count_`,
`prev_state_`, and the four modifier flags), plus the inherited
`target_`.  `uint32_t` becomes `Nat`; `int` becomes `Int`. -/
structure KeyEvent where
  target_ : Option WindowPtr := none
  handled_ : Bool := false
  key_ : Key
  key_char_ : Nat
  native_key_code_ : Int
  repeat_count_ : Int := 0
  prev_state_ : Bool := false
  modifier_shift_pressed_ : Bool := false
  modifier_ctrl_pressed_ : Bool := false
  modifier_alt_pressed_ : Bool := false
  modifier_super_pressed_ : Bool := false
  deriving DecidableEq, Repr

def KeyEvent.is_handled (e : KeyEvent) : Bool := e.handled_

def KeyEvent.key (e : KeyEvent) : Key := e.key_

def KeyEvent.key_char (e : KeyEvent) : Nat := e.key_char_

def KeyEvent.native_key_code (e : KeyEvent) : Int := e.native_key_code_

def KeyEvent.repeat_count (e : KeyEvent) : Int := e.repeat_count_

def KeyEvent.prev_state (e : KeyEvent) : Bool := e.prev_state_

def KeyEvent.is_shift_pressed (e : KeyEvent) : Bool := e.modifier_shift_pressed_

def KeyEvent.is_ctrl_pressed (e : KeyEvent) : Bool := e.modifier_ctrl_pressed_

def KeyEvent.is_alt_pressed (e : KeyEvent) : Bool := e.modifier_alt_pressed_

def KeyEvent.is_super_pressed (e : KeyEvent) : Bool := e.modifier_super_pressed_

/-- `KeyEvent.target()` (inherited from `UIEvent`). -/
def KeyEvent.target (e : KeyEvent) : Option WindowPtr := e.target_

/-- `MouseEvent::Button` enumeration (`ui_event.h:184-191`). -/
inductive Button where
  | kNone
  | kLeft
  | kRight
  | kMiddle
  | kX1
  | kX2
  deriving DecidableEq, Repr

/-- `MouseEvent` (`ui_event.h:182-215`): data members are exactly
`handled_`, `button_`, `x_`, `y_`, `dx_`, `dy_` plus the inherited
`target_`.  Note: the class declares no modifier-state members. -/
structure MouseEvent where
  target_ : Option WindowPtr := none
  handled_ : Bool := false
  button_ : Button
  x_ : Int := 0
  y_ : Int := 0
  dx_ : Int := 0
  dy_ : Int := 0
  deriving DecidableEq, Repr

def MouseEvent.is_handled (e : MouseEvent) : Bool := e.handled_

def MouseEvent.button (e : MouseEvent) : Button := e.button_

def MouseEvent.x (e : MouseEvent) : Int := e.x_

def MouseEvent.y (e : MouseEvent) : Int := e.y_

def MouseEvent.dx (e : MouseEvent) : Int := e.dx_

def MouseEvent.dy (e : MouseEvent) : Int := e.dy_

/-- `MouseEvent.target()` (inherited from `UIEvent`). -/
def MouseEvent.target (e : MouseEvent) : Option WindowPtr := e.target_

/-! ### The native GDK event model (the fields the adapter reads) -/

/-- The `GdkEventType` values the adapter's handlers inspect, plus
`GDK_2BUTTON_PRESS` and `GDK_DESTROY` to stand for the "any other"
event types reaching a handler's `default` branch. -/
inductive GdkEventType where
  | GDK_KEY_PRESS
  | GDK_KEY_RELEASE
  | GDK_BUTTON_PRESS
  | GDK_BUTTON_RELEASE
  | GDK_MOTION_NOTIFY
  | GDK_SCROLL
  | GDK_CONFIGURE
  | GDK_FOCUS_CHANGE
  | GDK_VISIBILITY_NOTIFY
  | GDK_OWNER_CHANGE
  | GDK_2BUTTON_PRESS
  | GDK_DESTROY
  deriving DecidableEq, Repr

/-- GDK modifier masks (`gdk/gdktypes.h`). -/
def GDK_SHIFT_MASK : Nat := 1 <<< 0

def GDK_CONTROL_MASK : Nat := 1 <<< 2

def GDK_SUPER_MASK : Nat := 1 <<< 26

def GDK_META_MASK : Nat := 1 <<< 28

/-- The fields of `GdkEventKey` that `HandleKeyboard` reads: `type`,
`keyval` (`guint`) and the modifier `state` (`guint`). -/
structure GdkEventKey where
  type : GdkEventType
  keyval : Nat
  state : Nat
  deriving DecidableEq, Repr

/-- The GDK mouse-family events as `HandleMouse` sees them through
`GdkEventAny*`: the discriminating `type` plus the fields the handler
reads per variant.  `GdkEventButton`, `GdkEventMotion` and
`GdkEventScroll` all also carry a modifier `state` field, kept here even
though the handler never reads it.  The `gdouble` coordinates are
modelled after their assignment to the `int32_t` locals.  `other` stands
for any mouse-family type hitting the `default` branch (e.g. a double
click, `GDK_2BUTTON_PRESS`). -/
inductive GdkMouseEvent where
  | buttonPress (button : Nat) (x y : Int) (state : Nat)
  | buttonRelease (button : Nat) (x y : Int) (state : Nat)
  | motion (x y : Int) (state : Nat)
  | scroll (x y dx dy : Int) (state : Nat)
  | other
  deriving DecidableEq, Repr

/-- `GdkEventConfigure` as `HandleWindowResize` reads it: `type`, `width`,
`height` (`gint`). -/
structure GdkEventConfigure where
  type : GdkEventType
  width : Int
  height : Int
  deriving DecidableEq, Repr

/-- `GdkVisibilityState`; GDK names the middle value
`GDK_VISIBILITY_PARTIAL`, spelled out here. -/
inductive GdkVisibilityState where
  | GDK_VISIBILITY_UNOBSCURED
  | GDK_VISIBILITY_PARTIALLY_OBSCURED
  | GDK_VISIBILITY_FULLY_OBSCURED
  deriving DecidableEq, Repr

/-- `GdkEventVisibility` as `HandleWindowVisibility` reads it. -/
structure GdkEventVisibility where
  type : GdkEventType
  state : GdkVisibilityState
  deriving DecidableEq, Repr

/-- `GdkEventFocus` as `HandleWindowFocus` reads it; the C field is named
`in` (a Lean keyword), spelled `in_` here. -/
structure GdkEventFocus where
  type : GdkEventType
  in_ : Bool
  deriving DecidableEq, Repr

/-! ### The GTKWindow object state -/

/-- The mutable fields of a `GTKWindow` object that the verified methods
touch, plus `self`, the object's own `this` pointer (used as the `target`
of every event the object constructs), and `window_`, whether the
toplevel widget pointer is non-null. -/
structure GTKWindowState where
  self : WindowPtr
  window_ : Bool
  width_ : Int
  height_ : Int
  fullscreen_ : Bool
  closing_ : Bool
  has_focus_ : Bool
  deriving DecidableEq, Repr

/-- `GTKWindow::is_fullscreen()` (`window_gtk.cc:155`). -/
def GTKWindowState.is_fullscreen (s : GTKWindowState) : Bool := s.fullscreen_

/-- A call into the GTK toolkit, recorded so that "performs no toolkit
call" is expressible. -/
inductive GtkCall where
  | gtk_window_fullscreen
  | gtk_window_unfullscreen
  | gtk_window_resize (width height : Int)
  | gtk_window_move (left top : Int)
  | gtk_widget_destroy
  deriving DecidableEq, Repr

/-! ### Thin forwarding methods -/

/-- `GTKWindow::SetIcon` (`window_gtk.cc:149-153`): the body is a TODO
comment and `return false;`.  The buffer pointer and size are taken but
never read. -/
def SetIcon (s : GTKWindowState) (buffer : Nat) (size : Nat) :
    GTKWindowState × Bool × List GtkCall :=
  (s, false, [])

/-- `GTKWindow::ToggleFullscreen` (`window_gtk.cc:157-168`):
early-returns when the argument equals `is_fullscreen()`, otherwise
stores the flag and calls `gtk_window_fullscreen` or
`gtk_window_unfullscreen`. -/
def ToggleFullscreen (s : GTKWindowState) (fullscreen : Bool) :
    GTKWindowState × List GtkCall :=
  if fullscreen == s.is_fullscreen then
    (s, [])
  else
    let s := { s with fullscreen_ := fullscreen }
    if fullscreen then
      (s, [GtkCall.gtk_window_fullscreen])
    else
      (s, [GtkCall.gtk_window_unfullscreen])

/-- Signed 32-bit wrap-around, modelling what an `int32_t` subtraction
produces on two's-complement hardware. -/
def wrap32 (n : Int) : Int := (n + 2 ^ 31) % 2 ^ 32 - 2 ^ 31

/-- `n` is representable as `int32_t`. -/
def inInt32 (n : Int) : Prop := -(2 ^ 31) ≤ n ∧ n < 2 ^ 31

instance (n : Int) : Decidable (inInt32 n) := by
  unfold inInt32; infer_instance

/-- `GTKWindow::Resize(int32_t width, int32_t height)`
(`window_gtk.cc:208-212`): stores the size, then calls
`gtk_window_resize`. -/
def Resize (s : GTKWindowState) (width height : Int) :
    GTKWindowState × List GtkCall :=
  ({ s with width_ := width, height_ := height },
   [GtkCall.gtk_window_resize width height])

/-- `GTKWindow::Resize(int32_t left, int32_t top, int32_t right,
int32_t bottom)` (`window_gtk.cc:214-222`): computes
`int32_t width = right - left; int32_t height = bottom - top;`, stores
them, then calls `gtk_window_move` and `gtk_window_resize`. -/
def Resize4 (s : GTKWindowState) (left top right bottom : Int) :
    GTKWindowState × List GtkCall :=
  let width := wrap32 (right - left)
  let height := wrap32 (bottom - top)
  ({ s with width_ := width, height_ := height },
   [GtkCall.gtk_window_move left top, GtkCall.gtk_window_resize width height])

/-! ### Close -/

/-- A record of the notifications issued while closing. -/
inductive CloseCall where
  | onCloseNotification
  | gtk_widget_destroy
  deriving DecidableEq, Repr

/-- `GTKWindow::OnClose` (`window_gtk.cc:132-139`): destroys the widget
when not already closing and the widget pointer is non-null, then always
calls `super::OnClose()`, the notification to listeners. -/
def OnClose (s : GTKWindowState) : GTKWindowState × List CloseCall :=
  if !s.closing_ && s.window_ then
    ({ s with closing_ := true, window_ := false },
     [CloseCall.gtk_widget_destroy, CloseCall.onCloseNotification])
  else
    (s, [CloseCall.onCloseNotification])

/-- `GTKWindow::Close` (`window_gtk.cc:231-238`): returns at once when
`closing_` is set; otherwise sets `closing_`, calls itself recursively,
then calls `OnClose()`.  The recursion terminates because the flag is
set before the self-call. -/
def Close (s : GTKWindowState) : GTKWindowState × List CloseCall :=
  if s.closing_ then
    (s, [])
  else
    let r := Close { s with closing_ := true }
    let r2 := OnClose r.1
    (r2.1, r.2 ++ r2.2)
termination_by (if s.closing_ then 0 else 1)
decreasing_by simp_all

/-! ### The mouse handler -/

/-- A dispatched mouse notification with the event it carried. -/
inductive MouseDispatch where
  | onMouseDown (e : MouseEvent)
  | onMouseUp (e : MouseEvent)
  | onMouseMove (e : MouseEvent)
  | onMouseWheel (e : MouseEvent)
  deriving DecidableEq, Repr

/-- The abstract `Window::OnMouse*` listeners.  A handler receives the
event (including its current `handled_` flag) and returns the flag's new
value, modelling that a listener may call `set_handled`. -/
structure MouseHandlers where
  onMouseDown : MouseEvent → Bool
  onMouseUp : MouseEvent → Bool
  onMouseMove : MouseEvent → Bool
  onMouseWheel : MouseEvent → Bool

/-- The inner `switch (e->button)` of `HandleMouse`
(`window_gtk.cc:335-351`): `button` starts as `kNone` and is overwritten
only for native buttons 1..5; the switch has no `default`, so every
other number leaves `kNone`. -/
def mapGdkButton (b : Nat) : Button :=
  if b == 1 then Button.kLeft
  else if b == 3 then Button.kRight
  else if b == 2 then Button.kMiddle
  else if b == 4 then Button.kX1
  else if b == 5 then Button.kX2
  else Button.kNone

/-- The first `switch (event->type)` of `HandleMouse`
(`window_gtk.cc:328-370`), computing `button`, `x`, `y`, `dx`, `dy` from
the native event; `none` models the `default: return true;` early
return. -/
def mouseFields (event : GdkMouseEvent) :
    Option (Button × Int × Int × Int × Int) :=
  match event with
  | GdkMouseEvent.buttonPress b x y _ => some (mapGdkButton b, x, y, 0, 0)
  | GdkMouseEvent.buttonRelease b x y _ => some (mapGdkButton b, x, y, 0, 0)
  | GdkMouseEvent.motion x y _ => some (Button.kNone, x, y, 0, 0)
  | GdkMouseEvent.scroll x y dx dy _ => some (Button.kNone, x, y, dx, dy)
  | GdkMouseEvent.other => none

/-- `GTKWindow::HandleMouse` (`window_gtk.cc:322-390`): computes the
fields, constructs `MouseEvent(this, button, x, y, dx, dy)`, dispatches
by a second `switch (event->type)`, and returns `e.is_handled()` (or
`true` from the first switch's `default`, or `false` from the second's,
which is unreachable). -/
def HandleMouse (s : GTKWindowState) (event : GdkMouseEvent)
    (hs : MouseHandlers) : List MouseDispatch × Bool :=
  match mouseFields event with
  | none => ([], true)
  | some (button, x, y, dx, dy) =>
    let e : MouseEvent :=
      { target_ := some s.self, button_ := button, x_ := x, y_ := y,
        dx_ := dx, dy_ := dy }
    match event with
    | GdkMouseEvent.buttonPress _ _ _ _ =>
        let e := { e with handled_ := hs.onMouseDown e }
        ([MouseDispatch.onMouseDown e], e.is_handled)
    | GdkMouseEvent.buttonRelease _ _ _ _ =>
        let e := { e with handled_ := hs.onMouseUp e }
        ([MouseDispatch.onMouseUp e], e.is_handled)
    | GdkMouseEvent.motion _ _ _ =>
        let e := { e with handled_ := hs.onMouseMove e }
        ([MouseDispatch.onMouseMove e], e.is_handled)
    | GdkMouseEvent.scroll _ _ _ _ _ =>
        let e := { e with handled_ := hs.onMouseWheel e }
        ([MouseDispatch.onMouseWheel e], e.is_handled)
    | GdkMouseEvent.other => ([], false)

/-! ### The keyboard handler -/

/-- A dispatched keyboard notification with the event it carried. -/
inductive KeyDispatch where
  | onKeyDown (e : KeyEvent)
  | onKeyChar (e : KeyEvent)
  | onKeyUp (e : KeyEvent)
  deriving DecidableEq, Repr

/-- The abstract `Window::OnKey*` listeners, as for `MouseHandlers`. -/
structure KeyHandlers where
  onKeyDown : KeyEvent → Bool
  onKeyChar : KeyEvent → Bool
  onKeyUp : KeyEvent → Bool

/-- The `KeyEvent` constructed by `HandleKeyboard`
(`window_gtk.cc:609-619`): `KeyEvent(this, key, event->keyval, key_char,
1, event->type == GDK_KEY_RELEASE, shift, ctrl, alt, super)`, with the
modifier flags taken from `event->state` and `key_char` from
`gdk_keyval_to_unicode(event->keyval)` (a GTK library function, passed
in as `ktu`). -/
def buildKeyEvent (s : GTKWindowState) (ktu : Nat → Nat)
    (event : GdkEventKey) : KeyEvent :=
  let modifiers := event.state
  { target_ := some s.self
  , key_ := MapGdkKeyToKeyEventKey event.keyval
  , native_key_code_ := (event.keyval : Int)
  , key_char_ := ktu event.keyval
  , repeat_count_ := 1
  , prev_state_ := event.type == GdkEventType.GDK_KEY_RELEASE
  , modifier_shift_pressed_ := modifiers &&& GDK_SHIFT_MASK != 0
  , modifier_ctrl_pressed_ := modifiers &&& GDK_CONTROL_MASK != 0
  , modifier_alt_pressed_ := modifiers &&& GDK_META_MASK != 0
  , modifier_super_pressed_ := modifiers &&& GDK_SUPER_MASK != 0 }

/-- `GTKWindow::HandleKeyboard` (`window_gtk.cc:609-632`): builds the
`KeyEvent`, then `switch (event->type)`: on `GDK_KEY_PRESS` calls
`OnKeyDown` and, when `key_char > 0`, `OnKeyChar`; on `GDK_KEY_RELEASE`
calls `OnKeyUp`; any other type returns `false`.  In the handled cases
it returns `e.is_handled()`. -/
def HandleKeyboard (s : GTKWindowState) (ktu : Nat → Nat)
    (hs : KeyHandlers) (event : GdkEventKey) : List KeyDispatch × Bool :=
  let key_char := ktu event.keyval
  let e := buildKeyEvent s ktu event
  match event.type with
  | GdkEventType.GDK_KEY_PRESS =>
      let e1 := { e with handled_ := hs.onKeyDown e }
      if key_char > 0 then
        let e2 := { e1 with handled_ := hs.onKeyChar e1 }
        ([KeyDispatch.onKeyDown e, KeyDispatch.onKeyChar e1], e2.is_handled)
      else
        ([KeyDispatch.onKeyDown e], e1.is_handled)
  | GdkEventType.GDK_KEY_RELEASE =>
      let e1 := { e with handled_ := hs.onKeyUp e }
      ([KeyDispatch.onKeyUp e], e1.is_handled)
  | _ => ([], false)

/-! ### The window-level handlers (paint, resize, visibility, focus) -/

/-- A dispatched window notification.  `layout` records the `Layout()`
call made by the resize handler; it carries no event. -/
inductive WindowDispatch where
  | onPaint (e : UIEvent)
  | onResize (e : UIEvent)
  | onVisible (e : UIEvent)
  | onHidden (e : UIEvent)
  | onGotFocus (e : UIEvent)
  | onLostFocus (e : UIEvent)
  | layout
  deriving DecidableEq, Repr

/-- `GTKWindow::HandleWindowPaint` (`window_gtk.cc:268-272`): constructs
`UIEvent(this)`, calls `OnPaint`, returns `true`. -/
def HandleWindowPaint (s : GTKWindowState) : List WindowDispatch × Bool :=
  ([WindowDispatch.onPaint { target_ := some s.self }], true)

/-- `GTKWindow::HandleWindowResize` (`window_gtk.cc:274-288`): on a
`GDK_CONFIGURE` event, constructs `UIEvent(this)`, updates the stored
size and calls `Layout()` when it changed, calls `OnResize`, and returns
`true`; otherwise returns `false`. -/
def HandleWindowResize (s : GTKWindowState) (event : GdkEventConfigure) :
    GTKWindowState × List WindowDispatch × Bool :=
  if event.type == GdkEventType.GDK_CONFIGURE then
    let width := event.width
    let height := event.height
    let e : UIEvent := { target_ := some s.self }
    if width != s.width_ || height != s.height_ then
      ({ s with width_ := width, height_ := height },
       [WindowDispatch.layout, WindowDispatch.onResize e], true)
    else
      (s, [WindowDispatch.onResize e], true)
  else
    (s, [], false)

/-- `GTKWindow::HandleWindowVisibility` (`window_gtk.cc:290-304`): on a
`GDK_VISIBILITY_NOTIFY` event, calls `OnVisible` with `UIEvent(this)`
when unobscured and `OnHidden` otherwise, returning `true`; otherwise
returns `false`. -/
def HandleWindowVisibility (s : GTKWindowState) (event : GdkEventVisibility) :
    List WindowDispatch × Bool :=
  if event.type == GdkEventType.GDK_VISIBILITY_NOTIFY then
    if event.state == GdkVisibilityState.GDK_VISIBILITY_UNOBSCURED then
      ([WindowDispatch.onVisible { target_ := some s.self }], true)
    else
      ([WindowDispatch.onHidden { target_ := some s.self }], true)
  else
    ([], false)

/-- `GTKWindow::HandleWindowFocus` (`window_gtk.cc:306-320`): on a
`GDK_FOCUS_CHANGE` event, updates `has_focus_` and calls `OnLostFocus`
or `OnGotFocus` with `UIEvent(this)`, returning `true`; otherwise
returns `false`. -/
def HandleWindowFocus (s : GTKWindowState) (event : GdkEventFocus) :
    GTKWindowState × List WindowDispatch × Bool :=
  if event.type == GdkEventType.GDK_FOCUS_CHANGE then
    if !event.in_ then
      ({ s with has_focus_ := false },
       [WindowDispatch.onLostFocus { target_ := some s.self }], true)
    else
      ({ s with has_focus_ := true },
       [WindowDispatch.onGotFocus { target_ := some s.self }], true)
  else
    (s, [], false)

/-! ### Target extraction, for the originating-window invariant -/

/-- The `target()` of the event a window dispatch carries (`none` for
`layout`, which carries no event). -/
def WindowDispatch.eventTarget : WindowDispatch → Option WindowPtr
  | WindowDispatch.onPaint e => e.target
  | WindowDispatch.onResize e => e.target
  | WindowDispatch.onVisible e => e.target
  | WindowDispatch.onHidden e => e.target
  | WindowDispatch.onGotFocus e => e.target
  | WindowDispatch.onLostFocus e => e.target
  | WindowDispatch.layout => none

/-- The `target()` of the event a mouse dispatch carries. -/
def MouseDispatch.eventTarget : MouseDispatch → Option WindowPtr
  | MouseDispatch.onMouseDown e => e.target
  | MouseDispatch.onMouseUp e => e.target
  | MouseDispatch.onMouseMove e => e.target
  | MouseDispatch.onMouseWheel e => e.target

/-- The `target()` of the event a key dispatch carries. -/
def KeyDispatch.eventTarget : KeyDispatch → Option WindowPtr
  | KeyDispatch.onKeyDown e => e.target
  | KeyDispatch.onKeyChar e => e.target
  | KeyDispatch.onKeyUp e => e.target

/-! ### Auxiliary definitions for the statements -/

/-- A Latin-letter keyval: uppercase `0x41`-`0x5a` or lowercase
`0x61`-`0x7a`. -/
def isLatinLetterKeyval (k : Nat) : Prop :=
  (0x41 ≤ k ∧ k ≤ 0x5a) ∨ (0x61 ≤ k ∧ k ≤ 0x7a)

instance (k : Nat) : Decidable (isLatinLetterKeyval k) := by
  unfold isLatinLetterKeyval; infer_instance

/-- The case-swap involution on Latin-letter keyvals (identity
elsewhere). -/
def caseSwapKeyval (k : Nat) : Nat :=
  if 0x41 ≤ k ∧ k ≤ 0x5a then k + 0x20
  else if 0x61 ≤ k ∧ k ≤ 0x7a then k - 0x20
  else k

/-- The `KeyEvent` as it stands when `HandleKeyboard` executes its final
`return e.is_handled();`: the built event with `handled_` as left by the
listeners that were dispatched for the event's type. -/
def keyboardFinalEvent (s : GTKWindowState) (ktu : Nat → Nat)
    (hs : KeyHandlers) (ev : GdkEventKey) : KeyEvent :=
  let e := buildKeyEvent s ktu ev
  match ev.type with
  | GdkEventType.GDK_KEY_PRESS =>
      let e1 := { e with handled_ := hs.onKeyDown e }
      if 0 < ktu ev.keyval then { e1 with handled_ := hs.onKeyChar e1 } else e1
  | GdkEventType.GDK_KEY_RELEASE => { e with handled_ := hs.onKeyUp e }
  | _ => e

/-- The dispatch-kind of a mouse dispatch, for stating routing. -/
inductive MouseKind where
  | down
  | up
  | move
  | wheel
  deriving DecidableEq, Repr

def MouseDispatch.kind : MouseDispatch → MouseKind
  | MouseDispatch.onMouseDown _ => MouseKind.down
  | MouseDispatch.onMouseUp _ => MouseKind.up
  | MouseDispatch.onMouseMove _ => MouseKind.move
  | MouseDispatch.onMouseWheel _ => MouseKind.wheel

/-- The event a mouse dispatch carries. -/
def MouseDispatch.event : MouseDispatch → MouseEvent
  | MouseDispatch.onMouseDown e => e
  | MouseDispatch.onMouseUp e => e
  | MouseDispatch.onMouseMove e => e
  | MouseDispatch.onMouseWheel e => e

/-- Sample concrete window state used by the closed instantiations. -/
def sampleState : GTKWindowState :=
  { self := 1, window_ := true, width_ := 1280, height_ := 720,
    fullscreen_ := false, closing_ := false, has_focus_ := true }

/-- Sample concrete mouse listeners. -/
def sampleMouseHandlers : MouseHandlers :=
  { onMouseDown := fun _ => true
  , onMouseUp := fun _ => false
  , onMouseMove := fun e => e.is_handled
  , onMouseWheel := fun _ => true }

/-- Sample concrete keyboard listeners. -/
def sampleKeyHandlers : KeyHandlers :=
  { onKeyDown := fun _ => true
  , onKeyChar := fun e => e.is_handled
  , onKeyUp := fun _ => false }

/-- Sample `gdk_keyval_to_unicode`: letter keyvals below `0x80` are their
own Unicode code point, other keyvals map to 0. -/
def sampleKtu : Nat → Nat := fun k => if k < 0x80 then k else 0

/-- A concrete `GDK_KEY_PRESS` event for the letter q with shift held. -/
def sampleKeyPress : GdkEventKey :=
  { type := GdkEventType.GDK_KEY_PRESS, keyval := GDK_KEY_q, state := 1 }

/-- A lookup on an association list whose keys avoid `k` misses. -/
theorem lookup_eq_none_of_not_mem_keys {β : Type} (l : List (Nat × β))
    (k : Nat) (h : k ∉ l.map Prod.fst) : l.lookup k = none := by
  induction l with
  | nil => rfl
  | cons p t ih =>
    obtain ⟨a, b⟩ := p
    simp only [List.map_cons, List.mem_cons, not_or] at h
    have hk : (k == a) = false := by
      simp [h.1]
    simp [List.lookup, hk, ih h.2]

/-- Helper for the case-insensitivity claim, established by evaluation
over the bounded letter range. -/
theorem caseSwap_preserves_map_bounded :
    ∀ k : Nat, k < 0x7b → isLatinLetterKeyval k →
      MapGdkKeyToKeyEventKey (caseSwapKeyval k) = MapGdkKeyToKeyEventKey k := by
  decide

/-! ### Claim theorems -/

set_option maxRecDepth 8000 in
/-- Claim C1: `MapGdkKeyToKeyEventKey` is a pure lookup table: it is a
total function on keyvals; each keyval listed in the switch maps to its
stated portable key (in particular `GDK_KEY_Escape` to `kEsc`,
`GDK_KEY_F1` to `kF1` and `GDK_KEY_space` to `kSpace`), and every keyval
not listed maps to `KeyEvent::Key::kNone`. -/
theorem mapGdkKey_pure_lookup_table :
    MapGdkKeyToKeyEventKey GDK_KEY_Escape = Key.kEsc ∧
    MapGdkKeyToKeyEventKey GDK_KEY_F1 = Key.kF1 ∧
    MapGdkKeyToKeyEventKey GDK_KEY_space = Key.kSpace ∧
    (∀ p ∈ gdkKeyTable, MapGdkKeyToKeyEventKey p.1 = p.2) ∧
    (∀ k : Nat, k ∉ listedGdkKeyvals → MapGdkKeyToKeyEventKey k = Key.kNone) := by
  refine ⟨by decide, by decide, by decide, by decide, ?_⟩
  intro k hk
  unfold MapGdkKeyToKeyEventKey
  rw [lookup_eq_none_of_not_mem_keys gdkKeyTable k hk]
  rfl

/-- Closed instantiation of `mapGdkKey_pure_lookup_table`: the Tab entry
of the table, and the unlisted keyval `0xff14` (`GDK_KEY_Scroll_Lock`)
mapping to `kNone`. -/
theorem mapGdkKey_pure_lookup_table_witness :
    ((GDK_KEY_Tab, Key.kTab) ∈ gdkKeyTable ∧
      MapGdkKeyToKeyEventKey GDK_KEY_Tab = Key.kTab) ∧
    ((0xff14 : Nat) ∉ listedGdkKeyvals ∧
      MapGdkKeyToKeyEventKey 0xff14 = Key.kNone) :=
  ⟨⟨by decide,
    mapGdkKey_pure_lookup_table.2.2.2.1 (GDK_KEY_Tab, Key.kTab) (by decide)⟩,
   ⟨by decide, mapGdkKey_pure_lookup_table.2.2.2.2 0xff14 (by decide)⟩⟩

/-- Claim C9: the keycode mapping is case-insensitive for letters: for
every Latin letter the lowercase and uppercase GDK keyvals map to the
same portable key (e.g. `GDK_KEY_q` and `GDK_KEY_Q` both to `kQ`,
`GDK_KEY_z` and `GDK_KEY_Z` both to `kZ`); composing the map with the
case swap on letter keyvals changes nothing. -/
theorem mapGdkKey_case_insensitive :
    MapGdkKeyToKeyEventKey GDK_KEY_q = Key.kQ ∧
    MapGdkKeyToKeyEventKey GDK_KEY_Q = Key.kQ ∧
    MapGdkKeyToKeyEventKey GDK_KEY_z = Key.kZ ∧
    MapGdkKeyToKeyEventKey GDK_KEY_Z = Key.kZ ∧
    ∀ k : Nat, isLatinLetterKeyval k →
      MapGdkKeyToKeyEventKey (caseSwapKeyval k) = MapGdkKeyToKeyEventKey k := by
  refine ⟨by decide, by decide, by decide, by decide, ?_⟩
  intro k hk
  have hb : k < 0x7b := by
    rcases hk with ⟨_, h⟩ | ⟨_, h⟩ <;> omega
  exact caseSwap_preserves_map_bounded k hb hk

/-- Closed instantiation of `mapGdkKey_case_insensitive` at the keyval of
the letter A. -/
theorem mapGdkKey_case_insensitive_witness :
    isLatinLetterKeyval GDK_KEY_A ∧
    MapGdkKeyToKeyEventKey (caseSwapKeyval GDK_KEY_A) =
      MapGdkKeyToKeyEventKey GDK_KEY_A :=
  ⟨by decide, mapGdkKey_case_insensitive.2.2.2.2 GDK_KEY_A (by decide)⟩

/-- Claim C8: `SetIcon` is a stub: for every buffer pointer and size it
returns `false`, leaves the window state unchanged, and makes no toolkit
call. -/
theorem setIcon_stub (s : GTKWindowState) (buffer size : Nat) :
    SetIcon s buffer size = (s, false, []) := rfl

/-- Claim C6: `ToggleFullscreen` establishes its argument as the new
state: after `ToggleFullscreen(f)` the accessor `is_fullscreen()`
returns `f`; and when `is_fullscreen()` already equals `f` the call
changes no state and performs no toolkit call. -/
theorem toggleFullscreen_spec (s : GTKWindowState) (f : Bool) :
    (ToggleFullscreen s f).1.is_fullscreen = f ∧
    (s.is_fullscreen = f → ToggleFullscreen s f = (s, [])) := by
  cases hf : s.fullscreen_ <;> cases f <;>
    simp [ToggleFullscreen, GTKWindowState.is_fullscreen, hf]

/-- Closed instantiation of `toggleFullscreen_spec`: toggling the
non-fullscreen sample window to `false` is a no-op, and toggling it to
`true` sets the flag. -/
theorem toggleFullscreen_spec_witness :
    sampleState.is_fullscreen = false ∧
    ToggleFullscreen sampleState false = (sampleState, []) ∧
    (ToggleFullscreen sampleState true).1.is_fullscreen = true :=
  ⟨rfl, (toggleFullscreen_spec sampleState false).2 rfl,
   (toggleFullscreen_spec sampleState true).1⟩

/-- Claim C7: the resize forwarding methods update the stored size
before calling the toolkit: `Resize(w, h)` stores `w` and `h`; and
`Resize(left, top, right, bottom)` stores `right - left` and
`bottom - top`, the differences computed in signed 32-bit arithmetic
(exact whenever they are representable as `int32_t`). -/
theorem resize_spec (s : GTKWindowState) (w h left top right bottom : Int)
    (hw : inInt32 (right - left)) (hh : inInt32 (bottom - top)) :
    (Resize s w h).1.width_ = w ∧
    (Resize s w h).1.height_ = h ∧
    (Resize4 s left top right bottom).1.width_ = right - left ∧
    (Resize4 s left top right bottom).1.height_ = bottom - top := by
  unfold inInt32 at hw hh
  refine ⟨rfl, rfl, ?_, ?_⟩ <;>
    · simp only [Resize4, wrap32]
      omega

/-- Closed instantiation of `resize_spec` at a 640x0 to 1920x1080
rectangle. -/
theorem resize_spec_witness :
    inInt32 ((1920 : Int) - 640) ∧ inInt32 ((1080 : Int) - 0) ∧
    (Resize sampleState 800 600).1.width_ = 800 ∧
    (Resize4 sampleState 640 0 1920 1080).1.width_ = 1920 - 640 ∧
    (Resize4 sampleState 640 0 1920 1080).1.height_ = 1080 - 0 :=
  ⟨by decide, by decide,
   (resize_spec sampleState 800 600 640 0 1920 1080 (by decide) (by decide)).1,
   (resize_spec sampleState 800 600 640 0 1920 1080 (by decide) (by decide)).2.2.1,
   (resize_spec sampleState 800 600 640 0 1920 1080 (by decide) (by decide)).2.2.2⟩

/-- Claim C10: `GTKWindow::Close` terminates and is idempotent despite
calling itself: when `closing_` is `false` the flag is set before the
self-call, the recursive invocation returns immediately, and exactly one
`OnClose` notification is issued; when `closing_` is already `true` the
call returns at once and changes no state. -/
theorem close_terminates_idempotent (s : GTKWindowState) :
    (s.closing_ = false →
      Close s = ({ s with closing_ := true },
                 [CloseCall.onCloseNotification])) ∧
    (s.closing_ = true → Close s = (s, [])) := by
  constructor
  · intro h
    rw [Close]
    simp only [h, Bool.false_eq_true, if_false]
    rw [Close]
    simp [OnClose]
  · intro h
    rw [Close]
    simp [h]

/-- Closed instantiation of `close_terminates_idempotent`: closing the
sample window once issues one notification; closing the already-closing
window does nothing. -/
theorem close_terminates_idempotent_witness :
    sampleState.closing_ = false ∧
    Close sampleState = ({ sampleState with closing_ := true },
                         [CloseCall.onCloseNotification]) ∧
    ({ sampleState with closing_ := true } : GTKWindowState).closing_ = true ∧
    Close { sampleState with closing_ := true } =
      ({ sampleState with closing_ := true }, []) :=
  ⟨rfl, (close_terminates_idempotent sampleState).1 rfl, rfl,
   (close_terminates_idempotent { sampleState with closing_ := true }).2 rfl⟩

/-- Claim C2: for every GDK key event, `HandleKeyboard` builds one
`KeyEvent` whose `key` is `MapGdkKeyToKeyEventKey(event->keyval)`, whose
`native_key_code` is the raw keyval, and whose `prev_state` is true
exactly for a key release; it dispatches `OnKeyDown` on a press,
followed by `OnKeyChar` if and only if the translated `key_char` is
greater than 0, dispatches `OnKeyUp` on a release, returns the event's
`is_handled()` flag in those cases, and returns `false` for any other
event type. -/
theorem handleKeyboard_spec (s : GTKWindowState) (ktu : Nat → Nat)
    (hs : KeyHandlers) (ev : GdkEventKey) :
    (buildKeyEvent s ktu ev).key = MapGdkKeyToKeyEventKey ev.keyval ∧
    (buildKeyEvent s ktu ev).native_key_code = (ev.keyval : Int) ∧
    ((buildKeyEvent s ktu ev).prev_state = true ↔
       ev.type = GdkEventType.GDK_KEY_RELEASE) ∧
    (ev.type = GdkEventType.GDK_KEY_PRESS →
       (HandleKeyboard s ktu hs ev).1 =
         KeyDispatch.onKeyDown (buildKeyEvent s ktu ev) ::
           (if 0 < ktu ev.keyval then
              [KeyDispatch.onKeyChar
                 { buildKeyEvent s ktu ev with
                     handled_ := hs.onKeyDown (buildKeyEvent s ktu ev) }]
            else []) ∧
       (HandleKeyboard s ktu hs ev).2 =
         (keyboardFinalEvent s ktu hs ev).is_handled) ∧
    (ev.type = GdkEventType.GDK_KEY_RELEASE →
       (HandleKeyboard s ktu hs ev).1 =
         [KeyDispatch.onKeyUp (buildKeyEvent s ktu ev)] ∧
       (HandleKeyboard s ktu hs ev).2 =
         (keyboardFinalEvent s ktu hs ev).is_handled) ∧
    (ev.type ≠ GdkEventType.GDK_KEY_PRESS →
       ev.type ≠ GdkEventType.GDK_KEY_RELEASE →
       HandleKeyboard s ktu hs ev = ([], false)) := by
  obtain ⟨ty, keyval, st⟩ := ev
  refine ⟨rfl, rfl, ?_, ?_, ?_, ?_⟩ <;>
    cases ty <;>
      simp [buildKeyEvent, KeyEvent.prev_state, HandleKeyboard,
            keyboardFinalEvent, KeyEvent.is_handled]
  split <;> simp

/-- Closed instantiation of `handleKeyboard_spec` at a concrete shifted
press of the letter q. -/
theorem handleKeyboard_spec_witness :
    (HandleKeyboard sampleState sampleKtu sampleKeyHandlers
        sampleKeyPress).1 =
      KeyDispatch.onKeyDown
          (buildKeyEvent sampleState sampleKtu sampleKeyPress) ::
        (if 0 < sampleKtu sampleKeyPress.keyval then
           [KeyDispatch.onKeyChar
              { buildKeyEvent sampleState sampleKtu sampleKeyPress with
                  handled_ :=
                    sampleKeyHandlers.onKeyDown
                      (buildKeyEvent sampleState sampleKtu sampleKeyPress) }]
         else []) ∧
    (HandleKeyboard sampleState sampleKtu sampleKeyHandlers
        sampleKeyPress).2 =
      (keyboardFinalEvent sampleState sampleKtu sampleKeyHandlers
          sampleKeyPress).is_handled :=
  (handleKeyboard_spec sampleState sampleKtu sampleKeyHandlers
      sampleKeyPress).2.2.2.1 rfl

/-- Claim C3: `HandleMouse` translates native button codes one-way into
the portable `Button` enumeration (1 to `kLeft`, 2 to `kMiddle`, 3 to
`kRight`, 4 to `kX1`, 5 to `kX2`, anything else to `kNone`); motion and
scroll events carry `Button::kNone`; `dx` and `dy` are nonzero only for
scroll events; and the resulting `MouseEvent` goes to `OnMouseDown`,
`OnMouseUp`, `OnMouseMove` or `OnMouseWheel` according to the native
event type. -/
theorem handleMouse_spec (s : GTKWindowState) (hs : MouseHandlers)
    (bnum : Nat) (x y dx dy : Int) (st : Nat) :
    (mapGdkButton 1 = Button.kLeft ∧ mapGdkButton 2 = Button.kMiddle ∧
     mapGdkButton 3 = Button.kRight ∧ mapGdkButton 4 = Button.kX1 ∧
     mapGdkButton 5 = Button.kX2) ∧
    (∀ b : Nat, b ∉ ([1, 2, 3, 4, 5] : List Nat) →
       mapGdkButton b = Button.kNone) ∧
    ((HandleMouse s (GdkMouseEvent.buttonPress bnum x y st) hs).1.length = 1 ∧
     ∀ d ∈ (HandleMouse s (GdkMouseEvent.buttonPress bnum x y st) hs).1,
       d.kind = MouseKind.down ∧ d.event.button = mapGdkButton bnum ∧
       d.event.x = x ∧ d.event.y = y ∧ d.event.dx = 0 ∧ d.event.dy = 0) ∧
    ((HandleMouse s (GdkMouseEvent.buttonRelease bnum x y st) hs).1.length = 1 ∧
     ∀ d ∈ (HandleMouse s (GdkMouseEvent.buttonRelease bnum x y st) hs).1,
       d.kind = MouseKind.up ∧ d.event.button = mapGdkButton bnum ∧
       d.event.x = x ∧ d.event.y = y ∧ d.event.dx = 0 ∧ d.event.dy = 0) ∧
    ((HandleMouse s (GdkMouseEvent.motion x y st) hs).1.length = 1 ∧
     ∀ d ∈ (HandleMouse s (GdkMouseEvent.motion x y st) hs).1,
       d.kind = MouseKind.move ∧ d.event.button = Button.kNone ∧
       d.event.x = x ∧ d.event.y = y ∧ d.event.dx = 0 ∧ d.event.dy = 0) ∧
    ((HandleMouse s (GdkMouseEvent.scroll x y dx dy st) hs).1.length = 1 ∧
     ∀ d ∈ (HandleMouse s (GdkMouseEvent.scroll x y dx dy st) hs).1,
       d.kind = MouseKind.wheel ∧ d.event.button = Button.kNone ∧
       d.event.x = x ∧ d.event.y = y ∧ d.event.dx = dx ∧ d.event.dy = dy) := by
  refine ⟨⟨rfl, rfl, rfl, rfl, rfl⟩, ?_, ?_, ?_, ?_, ?_⟩
  · intro b hb
    simp only [List.mem_cons, List.not_mem_nil, or_false, not_or] at hb
    obtain ⟨h1, h2, h3, h4, h5⟩ := hb
    simp [mapGdkButton, h1, h2, h3, h4, h5]
  all_goals
    refine ⟨rfl, ?_⟩
    intro d hd
    simp only [HandleMouse, mouseFields, List.mem_singleton] at hd
    subst hd
    simp [MouseDispatch.kind, MouseDispatch.event, MouseEvent.button,
          MouseEvent.x, MouseEvent.y, MouseEvent.dx, MouseEvent.dy]

/-- Closed instantiation of `handleMouse_spec`: native button 9 maps to
`kNone`, and the dispatch for a concrete left-button press is an
`OnMouseDown` carrying the mapped button. -/
theorem handleMouse_spec_witness :
    ((9 : Nat) ∉ ([1, 2, 3, 4, 5] : List Nat) ∧
      mapGdkButton 9 = Button.kNone) ∧
    (MouseDispatch.onMouseDown
        { target_ := some sampleState.self, handled_ := true,
          button_ := Button.kLeft, x_ := 10, y_ := 20 } ∈
      (HandleMouse sampleState (GdkMouseEvent.buttonPress 1 10 20 0)
          sampleMouseHandlers).1 ∧
      (MouseDispatch.onMouseDown
          { target_ := some sampleState.self, handled_ := true,
            button_ := Button.kLeft, x_ := 10, y_ := 20 }).kind =
        MouseKind.down) :=
  ⟨⟨by decide,
    (handleMouse_spec sampleState sampleMouseHandlers 9 0 0 0 0 0).2.1 9
      (by decide)⟩,
   by decide,
   ((handleMouse_spec sampleState sampleMouseHandlers 1 10 20 0 0 0).2.2.1.2
       (MouseDispatch.onMouseDown
         { target_ := some sampleState.self, handled_ := true,
           button_ := Button.kLeft, x_ := 10, y_ := 20 })
       (by decide)).1⟩

/-- Claim C5: every event object the adapter constructs and dispatches,
from the paint, resize, visibility, focus, mouse and keyboard handlers,
is tagged with its originating window: the event's `target()` is the
window on which the native callback fired. -/
theorem dispatched_events_target_window (s : GTKWindowState)
    (cfg : GdkEventConfigure) (vis : GdkEventVisibility)
    (foc : GdkEventFocus) (mev : GdkMouseEvent) (mhs : MouseHandlers)
    (kev : GdkEventKey) (ktu : Nat → Nat) (khs : KeyHandlers) :
    (∀ d ∈ (HandleWindowPaint s).1, d.eventTarget = some s.self) ∧
    (∀ d ∈ (HandleWindowResize s cfg).2.1,
       d ≠ WindowDispatch.layout → d.eventTarget = some s.self) ∧
    (∀ d ∈ (HandleWindowVisibility s vis).1, d.eventTarget = some s.self) ∧
    (∀ d ∈ (HandleWindowFocus s foc).2.1, d.eventTarget = some s.self) ∧
    (∀ d ∈ (HandleMouse s mev mhs).1, d.eventTarget = some s.self) ∧
    (∀ d ∈ (HandleKeyboard s ktu khs kev).1, d.eventTarget = some s.self) := by
  refine ⟨?_, ?_, ?_, ?_, ?_, ?_⟩
  · intro d hd
    simp only [HandleWindowPaint, List.mem_singleton] at hd
    subst hd
    rfl
  · intro d hd hne
    unfold HandleWindowResize at hd
    split at hd
    · simp only [] at hd
      split at hd
      · simp only [List.mem_cons, List.mem_singleton, List.not_mem_nil,
                   or_false] at hd
        rcases hd with hd | hd
        · exact absurd hd hne
        · subst hd; rfl
      · simp only [List.mem_singleton] at hd
        subst hd; rfl
    · simp at hd
  · intro d hd
    unfold HandleWindowVisibility at hd
    split at hd
    · split at hd <;>
        · simp only [List.mem_singleton] at hd
          subst hd; rfl
    · simp at hd
  · intro d hd
    unfold HandleWindowFocus at hd
    split at hd
    · split at hd <;>
        · simp only [List.mem_singleton] at hd
          subst hd; rfl
    · simp at hd
  · intro d hd
    cases mev <;>
      simp only [HandleMouse, mouseFields, List.mem_singleton,
                 List.not_mem_nil] at hd <;>
      subst hd <;> rfl
  · intro d hd
    obtain ⟨ty, keyval, st⟩ := kev
    cases ty <;>
      simp only [HandleKeyboard, List.not_mem_nil] at hd
    case GDK_KEY_PRESS =>
      split at hd <;>
        simp only [List.mem_cons, List.mem_singleton,
                   List.not_mem_nil, or_false] at hd
      · rcases hd with hd | hd <;> subst hd <;> rfl
      · subst hd; rfl
    case GDK_KEY_RELEASE =>
      simp only [List.mem_singleton] at hd
      subst hd
      rfl

/-- Closed instantiation of `dispatched_events_target_window`: the paint
dispatch of the sample window carries the sample window as target. -/
theorem dispatched_events_target_window_witness :
    WindowDispatch.onPaint { target_ := some sampleState.self } ∈
      (HandleWindowPaint sampleState).1 ∧
    (WindowDispatch.onPaint
        { target_ := some sampleState.self }).eventTarget =
      some sampleState.self :=
  ⟨by decide,
   (dispatched_events_target_window sampleState
       { type := GdkEventType.GDK_CONFIGURE, width := 640, height := 480 }
       { type := GdkEventType.GDK_VISIBILITY_NOTIFY,
         state := GdkVisibilityState.GDK_VISIBILITY_UNOBSCURED }
       { type := GdkEventType.GDK_FOCUS_CHANGE, in_ := true }
       (GdkMouseEvent.motion 0 0 0) sampleMouseHandlers
       sampleKeyPress sampleKtu sampleKeyHandlers).1
     (WindowDispatch.onPaint { target_ := some sampleState.self })
     (by decide)⟩

/-- Claim C4, amended: every `KeyEvent` carries a toolkit-independent
key identifier plus modifier-state flags (shift, ctrl, alt, super)
reflecting the native event's modifier state; a `MouseEvent` carries a
toolkit-independent button identifier but no modifier flags: everything
`HandleMouse` constructs and dispatches is invariant under the native
event's modifier state. -/
theorem keyEvent_modifiers_mouseEvent_none (s : GTKWindowState)
    (ktu : Nat → Nat) (ev : GdkEventKey) (hs : MouseHandlers)
    (bnum : Nat) (x y dx dy : Int) (st1 st2 : Nat) :
    (buildKeyEvent s ktu ev).is_shift_pressed =
      (ev.state &&& GDK_SHIFT_MASK != 0) ∧
    (buildKeyEvent s ktu ev).is_ctrl_pressed =
      (ev.state &&& GDK_CONTROL_MASK != 0) ∧
    (buildKeyEvent s ktu ev).is_alt_pressed =
      (ev.state &&& GDK_META_MASK != 0) ∧
    (buildKeyEvent s ktu ev).is_super_pressed =
      (ev.state &&& GDK_SUPER_MASK != 0) ∧
    HandleMouse s (GdkMouseEvent.buttonPress bnum x y st1) hs =
      HandleMouse s (GdkMouseEvent.buttonPress bnum x y st2) hs ∧
    HandleMouse s (GdkMouseEvent.buttonRelease bnum x y st1) hs =
      HandleMouse s (GdkMouseEvent.buttonRelease bnum x y st2) hs ∧
    HandleMouse s (GdkMouseEvent.motion x y st1) hs =
      HandleMouse s (GdkMouseEvent.motion x y st2) hs ∧
    HandleMouse s (GdkMouseEvent.scroll x y dx dy st1) hs =
      HandleMouse s (GdkMouseEvent.scroll x y dx dy st2) hs :=
  ⟨rfl, rfl, rfl, rfl, rfl, rfl, rfl, rfl⟩

/-- Counterexample to claim C4 as stated: two concrete native button
presses that differ only in the modifier state (shift held vs. no
modifiers) produce exactly the same dispatched `MouseEvent` and return
value, so a `MouseEvent` does not expose the modifier state that was
active when the native event occurred. -/
theorem mouseEvent_modifier_flags_counterexample :
    GdkMouseEvent.buttonPress 1 10 20 GDK_SHIFT_MASK ≠
      GdkMouseEvent.buttonPress 1 10 20 0 ∧
    HandleMouse sampleState
        (GdkMouseEvent.buttonPress 1 10 20 GDK_SHIFT_MASK)
        sampleMouseHandlers =
      HandleMouse sampleState (GdkMouseEvent.buttonPress 1 10 20 0)
        sampleMouseHandlers :=
  ⟨by decide, rfl⟩

end Xenia
